import Mathlib

/-!
# Verification of the squares game-state handler (`src/api/index.js`)

Shallow embedding of the single stateful HTTP handler managing a football
"squares" board: a document with 100 claimable squares, randomized row/column
digit assignment, team names, price per square and per-quarter scores.

Modelling conventions:
* The game document (`GameState`) mirrors the JSON document stored under the
  fixed Redis key.  Empty squares (`null` in JS) are `Option.none`.
* JS numbers occurring in the handler (square index, quarter index, price) are
  only ever compared and copied, never subjected to float rounding, so they are
  modelled as `Int`.
* Request-body fields destructured by the handler may be `undefined`; those the
  claims exercise as possibly-absent are modelled as `Option _` with
  `none` = `undefined`.  JS's comparison semantics on `undefined`
  (`undefined < 0` and `undefined > 99` are both `false`, since the coercion
  yields NaN) are captured by `jsLt` / `jsGt`.
* `handlerResult.ok st` models the `res.status(200).json(await saveGameState(st))`
  path: the document `st` is persisted to the store and returned with HTTP 200.
  `handlerResult.validationError msg` models `res.status(400).json({error: msg})`:
  nothing is persisted.
* `Math.floor(Math.random() * (i + 1))` inside the Fisher–Yates shuffle is
  modelled by a choice function `Nat → Nat`; since `Math.random () ∈ [0,1)`,
  the value at `i` always lies in `[0, i]`, which theorems assume where needed.
* Writing `arr[i] = v` with `i = undefined` stores under the string key
  `"undefined"`, which does not touch the 100 indexed slots and is dropped by
  JSON serialization; `jsArraySet` therefore leaves the list unchanged there.
-/

/-- A per-quarter score pair, `{team1, team2}` in the document. -/
structure QuarterScore where
  team1 : String
  team2 : String
deriving Repr, DecidableEq

/-- The game document stored under the fixed key (see `getGameState`). -/
structure GameState where
  squares : List (Option String)
  rowNumbers : List Nat
  colNumbers : List Nat
  numbersAssigned : Bool
  team1Name : String
  team2Name : String
  pricePerSquare : Int
  quarterScores : List QuarterScore
deriving Repr, DecidableEq

/-- The default document constructed by `getGameState` when the store is empty. -/
def defaultState : GameState :=
  { squares := List.replicate 100 none
    rowNumbers := []
    colNumbers := []
    numbersAssigned := false
    team1Name := "Patriots"
    team2Name := "Seahawks"
    pricePerSquare := 2
    quarterScores := List.replicate 4 ⟨"", ""⟩ }

/-- The POST body destructured by the handler:
`{ action, index, initials, team1Name, team2Name, quarter, team1Score, team2Score, price }`.
Fields other than `action` default to `undefined` (`none`).  The two score
payloads are modelled as plain strings, the representation the document holds. -/
structure Request where
  action : String
  index : Option Int := none
  initials : Option String := none
  team1Name : Option String := none
  team2Name : Option String := none
  quarter : Option Int := none
  team1Score : String := ""
  team2Score : String := ""
  price : Option Int := none
deriving Repr, DecidableEq

/-- Outcome of a POST dispatch: `ok st` is the 200 path where `st` has been
persisted via `saveGameState`; `validationError` is a 400 with no store write. -/
inductive HandlerResult where
  | ok (state : GameState)
  | validationError (msg : String)
deriving Repr, DecidableEq

/-- JS `initials.toUpperCase()`: uppercase every character. -/
def jsToUpper (s : String) : String := ⟨s.data.map Char.toUpper⟩

/-- JS `x < y` where `x` may be `undefined`: `undefined < y` is `false`. -/
def jsLt : Option Int → Int → Bool
  | some x, y => x < y
  | none, _ => false

/-- JS `x > y` where `x` may be `undefined`: `undefined > y` is `false`. -/
def jsGt : Option Int → Int → Bool
  | some x, y => y < x
  | none, _ => false

/-- JS truthiness of a possibly-undefined string: `undefined` and `""` are falsy. -/
def jsTruthyStr : Option String → Bool
  | some s => !s.isEmpty
  | none => false

/-- The check `!initials || initials.length < 2 || initials.length > 4`. -/
def initialsInvalid : Option String → Bool
  | none => true
  | some s => s.isEmpty || s.length < 2 || s.length > 4

/-- JS read `arr[i]` with a possibly-undefined index: `undefined` or an
out-of-range index reads `undefined` (here `none`). -/
def jsArrayGet (l : List α) (i : Option Int) : Option α :=
  match i with
  | some n => if h : 0 ≤ n ∧ n.toNat < l.length then some (l.get ⟨n.toNat, h.2⟩) else none
  | none => none

/-- JS write `arr[i] = v` with a possibly-undefined index.  With
`i = undefined` the value lands under the string key `"undefined"`, leaving the
indexed slots (and the JSON serialization) unchanged.  The handler only reaches
this write after validating `0 ≤ i ≤ 99` on a 100-slot array, so the
out-of-range guard is never exercised on reachable states. -/
def jsArraySet (l : List α) (i : Option Int) (v : α) : List α :=
  match i with
  | some n => if 0 ≤ n ∧ n.toNat < l.length then l.set n.toNat v else l
  | none => l

/-- Truthiness of `gameState.squares[index]`: a missing or `null` slot is
falsy, a string slot is truthy iff non-empty. -/
def squareTruthy (l : List (Option String)) (i : Option Int) : Bool :=
  match jsArrayGet l i with
  | some (some s) => !s.isEmpty
  | _ => false

/-- The destructuring swap `[arr[i], arr[j]] = [arr[j], arr[i]]` inside
`shuffle`.  Both indices are in bounds on every execution (`j ≤ i < length`);
the fallback for out-of-range indices leaves the array unchanged. -/
def jsSwap (l : List α) (i j : Nat) : List α :=
  match l[i]?, l[j]? with
  | some a, some b => (l.set i b).set j a
  | _, _ => l

/-- The loop of `shuffle`: `for (let i = arr.length - 1; i > 0; i--)` with
`c i = Math.floor(Math.random() * (i + 1))` as the random choice at index `i`. -/
def shuffleLoop (c : Nat → Nat) : Nat → List α → List α
  | 0, arr => arr
  | i + 1, arr => shuffleLoop c i (jsSwap arr (i + 1) (c (i + 1)))

/-- The function `shuffle(array)` from the source: Fisher–Yates over a copy, with the random
draws supplied by the choice function `c`. -/
def shuffle (arr : List α) (c : Nat → Nat) : List α :=
  shuffleLoop c (arr.length - 1) arr

/-- The digit pool `[0,1,2,3,4,5,6,7,8,9]` shuffled by `assign-numbers`. -/
def digits : List Nat := [0, 1, 2, 3, 4, 5, 6, 7, 8, 9]

/-- The random draws a single POST may consume: the choice functions of the two
`shuffle` calls and the `Math.random() < 0.5` coin for the team-name swap. -/
structure RandSource where
  rowC : Nat → Nat
  colC : Nat → Nat
  swapTeams : Bool

/-- The POST dispatch of the handler (`switch (action)`), acting on the
document fetched by `getGameState`.  Each `ok` result is the argument of
`saveGameState`. -/
def postHandler (rand : RandSource) (gameState : GameState) (req : Request) : HandlerResult :=
  match req.action with
  | "claim" =>
    if jsLt req.index 0 || jsGt req.index 99 then
      .validationError "Invalid square index"
    else if initialsInvalid req.initials then
      .validationError "Initials must be 2-4 characters"
    else if squareTruthy gameState.squares req.index then
      .validationError "Square already claimed"
    else
      .ok { gameState with
            squares := jsArraySet gameState.squares req.index
              (some (jsToUpper (req.initials.getD ""))) }
  | "assign-numbers" =>
    if (gameState.squares.filter (fun s => s.isSome)).length < 100 then
      .validationError "All squares must be claimed first"
    else
      .ok { gameState with
            rowNumbers := shuffle digits rand.rowC
            colNumbers := shuffle digits rand.colC
            numbersAssigned := true
            team1Name := if rand.swapTeams then gameState.team2Name else gameState.team1Name
            team2Name := if rand.swapTeams then gameState.team1Name else gameState.team2Name }
  | "update-teams" =>
    .ok { gameState with
          team1Name := if jsTruthyStr req.team1Name then req.team1Name.getD "" else gameState.team1Name
          team2Name := if jsTruthyStr req.team2Name then req.team2Name.getD "" else gameState.team2Name }
  | "update-price" =>
    .ok (match req.price with
         | some p => if 0 ≤ p then { gameState with pricePerSquare := p } else gameState
         | none => gameState)
  | "set-score" =>
    if jsLt req.quarter 0 || jsGt req.quarter 3 then
      .validationError "Invalid quarter"
    else
      .ok { gameState with
            quarterScores := jsArraySet gameState.quarterScores req.quarter
              ⟨req.team1Score, req.team2Score⟩ }
  | "erase" =>
    if jsLt req.index 0 || jsGt req.index 99 then
      .validationError "Invalid square index"
    else
      .ok { gameState with squares := jsArraySet gameState.squares req.index none }
  | "clear-board" =>
    .ok { gameState with squares := List.replicate 100 none }
  | "reset" =>
    .ok { squares := List.replicate 100 none
          rowNumbers := []
          colNumbers := []
          numbersAssigned := false
          team1Name := gameState.team1Name
          team2Name := gameState.team2Name
          pricePerSquare := if gameState.pricePerSquare = 0 then 2 else gameState.pricePerSquare
          quarterScores := List.replicate 4 ⟨"", ""⟩ }
  | _ => .validationError "Invalid action"

/-- A concrete random source for witnesses: always draw 0, no team swap. -/
def randZero : RandSource := ⟨fun _ => 0, fun _ => 0, false⟩

/-- One request/response round trip as seen by a client: the state after a
POST, which is the persisted document on a 200 and the untouched stored
document on a 400 (validation errors never write). -/
def step (rand : RandSource) (gs : GameState) (req : Request) : GameState :=
  match postHandler rand gs req with
  | .ok gs' => gs'
  | .validationError _ => gs

/-- Run a sequence of POSTs against the store, threading the document. -/
def runSeq : List (RandSource × Request) → GameState → GameState
  | [], gs => gs
  | rq :: rest, gs => runSeq rest (step rq.1 gs rq.2)

/-- A fully-claimed board, used as a concrete witness state. -/
def gsFull : GameState := { defaultState with squares := List.replicate 100 (some "AB") }

/-- Replacing the head of a cons with `a` after pulling `l[k]` to the front is a
permutation of pushing `a` into position `k`. -/
theorem get_cons_set_perm (a : α) (l : List α) (k : Nat) (hk : k < l.length) :
    List.Perm (l.get ⟨k, hk⟩ :: l.set k a) (a :: l) := by
  induction l generalizing k with
  | nil => simp at hk
  | cons b t ih =>
    cases k with
    | zero => exact List.Perm.swap a b t
    | succ k =>
      exact (List.Perm.swap _ _ _).trans
        (((ih k (Nat.lt_of_succ_lt_succ hk)).cons b).trans (List.Perm.swap _ _ _))

/-- Swapping two in-bounds positions of a list is a permutation. -/
theorem set_set_get_perm (l : List α) (i j : Nat) (hi : i < l.length) (hj : j < l.length) :
    List.Perm ((l.set i (l.get ⟨j, hj⟩)).set j (l.get ⟨i, hi⟩)) l := by
  induction l generalizing i j with
  | nil => simp at hi
  | cons a t ih =>
    cases i with
    | zero =>
      cases j with
      | zero => exact List.Perm.refl _
      | succ j => exact get_cons_set_perm a t j (Nat.lt_of_succ_lt_succ hj)
    | succ i =>
      cases j with
      | zero => exact get_cons_set_perm a t i (Nat.lt_of_succ_lt_succ hi)
      | succ j =>
        exact (ih i j (Nat.lt_of_succ_lt_succ hi) (Nat.lt_of_succ_lt_succ hj)).cons a

/-- A single JS destructuring swap permutes the list. -/
theorem jsSwap_perm (l : List α) (i j : Nat) : List.Perm (jsSwap l i j) l := by
  unfold jsSwap
  split
  case _ a b ha hb =>
    rcases List.getElem?_eq_some_iff.mp ha with ⟨hi, rfl⟩
    rcases List.getElem?_eq_some_iff.mp hb with ⟨hj, rfl⟩
    exact set_set_get_perm l i j hi hj
  case _ => exact List.Perm.refl _

/-- Every pass of the Fisher–Yates loop permutes the list. -/
theorem shuffleLoop_perm (c : Nat → Nat) (n : Nat) (l : List α) :
    List.Perm (shuffleLoop c n l) l := by
  induction n generalizing l with
  | zero => exact List.Perm.refl _
  | succ n ih => exact (ih _).trans (jsSwap_perm l (n + 1) (c (n + 1)))

/-- `shuffle` returns a permutation of its input, whatever the random draws. -/
theorem shuffle_perm (l : List α) (c : Nat → Nat) : List.Perm (shuffle l c) l :=
  shuffleLoop_perm c (l.length - 1) l

/-- The write `jsArraySet` never changes the length of the array. -/
theorem jsArraySet_length (l : List α) (i : Option Int) (v : α) :
    (jsArraySet l i v).length = l.length := by
  cases i with
  | none => rfl
  | some n =>
    show (if 0 ≤ n ∧ n.toNat < l.length then l.set n.toNat v else l).length = l.length
    split <;> simp

/-- On an in-bounds index, `jsArraySet` is `List.set`. -/
theorem jsArraySet_eq_set (l : List α) (n : Int) (v : α) (h0 : 0 ≤ n)
    (hl : n.toNat < l.length) :
    jsArraySet l (some n) v = l.set n.toNat v := by
  show (if 0 ≤ n ∧ n.toNat < l.length then l.set n.toNat v else l) = l.set n.toNat v
  rw [if_pos ⟨h0, hl⟩]

/-- `List.set` leaves every other position unchanged (getD form). -/
theorem getD_set_ne (l : List α) (i j : Nat) (v d : α) (h : j ≠ i) :
    (l.set i v).getD j d = l.getD j d := by
  simp [List.getD_eq_getElem?_getD, List.getElem?_set_ne (fun he => h he.symm)]

/-- A string of length at least 2 is not empty. -/
theorem ne_empty_of_two_le_length (s : String) (h : 2 ≤ s.length) : s ≠ "" := by
  intro he
  subst he
  simp [String.length] at h

/-- C6: for every game state, `clear-board` sets all 100 squares to empty and
leaves `rowNumbers`, `colNumbers`, `numbersAssigned`, `team1Name`, `team2Name`,
`pricePerSquare` and `quarterScores` unchanged. -/
theorem clear_board_spec (rand : RandSource) (gs : GameState) :
    postHandler rand gs { action := "clear-board" } =
      .ok { squares := List.replicate 100 none
            rowNumbers := gs.rowNumbers
            colNumbers := gs.colNumbers
            numbersAssigned := gs.numbersAssigned
            team1Name := gs.team1Name
            team2Name := gs.team2Name
            pricePerSquare := gs.pricePerSquare
            quarterScores := gs.quarterScores } := rfl

/-- C4 (amended): the `reset` action replaces the document with a fresh default — all
squares empty, `numbersAssigned` false, `rowNumbers`/`colNumbers` empty,
`quarterScores` all empty strings — carrying over the team names, and carrying
over `pricePerSquare` when it is nonzero (a falsy stored price is replaced by
the default 2, per `gameState.pricePerSquare || 2`). -/
theorem reset_spec (rand : RandSource) (gs : GameState) :
    postHandler rand gs { action := "reset" } =
      .ok { squares := List.replicate 100 none
            rowNumbers := []
            colNumbers := []
            numbersAssigned := false
            team1Name := gs.team1Name
            team2Name := gs.team2Name
            pricePerSquare := if gs.pricePerSquare = 0 then 2 else gs.pricePerSquare
            quarterScores := List.replicate 4 ⟨"", ""⟩ } := rfl

/-- C4 (counterexample): at the concrete pre-reset state with
`pricePerSquare = 0` (reachable via `update-price` with price 0), `reset`
produces `pricePerSquare = 2`, which differs from the pre-reset value — so the
claim that the post-reset price always equals the pre-reset price is false. -/
theorem reset_price_zero_counterexample :
    (postHandler randZero { defaultState with pricePerSquare := 0 } { action := "reset" } =
      .ok { defaultState with pricePerSquare := 2 }) ∧
    ({ defaultState with pricePerSquare := 2 } : GameState).pricePerSquare ≠
      ({ defaultState with pricePerSquare := 0 } : GameState).pricePerSquare := by
  exact ⟨rfl, by decide⟩

/-- C3 (amended): on a validation failure of `update-price` (price absent or
negative), `pricePerSquare` is not mutated, but the handler does NOT return a
client error: it returns 200 and persists the unchanged document. -/
theorem update_price_invalid_silent (rand : RandSource) (gs : GameState)
    (price : Option Int) (h : price = none ∨ ∃ p, price = some p ∧ p < 0) :
    postHandler rand gs { action := "update-price", price := price } = .ok gs := by
  rcases h with rfl | ⟨p, rfl, hp⟩
  · rfl
  · show HandlerResult.ok (if 0 ≤ p then { gs with pricePerSquare := p } else gs) =
      HandlerResult.ok gs
    rw [if_neg (not_le.mpr hp)]

/-- C3 (witness for the amended theorem at price −1). -/
theorem update_price_invalid_silent_witness :
    postHandler randZero defaultState { action := "update-price", price := some (-1) } =
      .ok defaultState :=
  update_price_invalid_silent randZero defaultState (some (-1))
    (Or.inr ⟨-1, rfl, by decide⟩)

/-- C3 (counterexample): with `price = -1` on the default state, the handler
returns the 200/persist result `.ok defaultState`, not a validation error —
refuting the claim that an invalid price yields an error result with no
persistence. -/
theorem update_price_invalid_counterexample :
    postHandler randZero defaultState { action := "update-price", price := some (-1) } =
      .ok defaultState ∧
    ∀ m ∈ ["Invalid price"],
      postHandler randZero defaultState { action := "update-price", price := some (-1) } ≠
        .validationError m := by
  exact ⟨rfl, by decide⟩

/-- C9: applying `update-price` with the same valid price is idempotent — the first
application yields `pricePerSquare = p` with a 200 result, and a second
application on the resulting state yields exactly the same state again. -/
theorem update_price_idempotent (r1 r2 : RandSource) (gs : GameState) (p : Int)
    (hp : 0 ≤ p) :
    postHandler r1 gs { action := "update-price", price := some p } =
      .ok { gs with pricePerSquare := p } ∧
    postHandler r2 { gs with pricePerSquare := p }
        { action := "update-price", price := some p } =
      .ok { gs with pricePerSquare := p } := by
  constructor
  · show HandlerResult.ok (if 0 ≤ p then { gs with pricePerSquare := p } else gs) =
      HandlerResult.ok { gs with pricePerSquare := p }
    rw [if_pos hp]
  · show HandlerResult.ok
        (if 0 ≤ p then { gs with pricePerSquare := p } else { gs with pricePerSquare := p }) =
      HandlerResult.ok { gs with pricePerSquare := p }
    rw [if_pos hp]

/-- C9 (witness at price 3 on the default state). -/
theorem update_price_idempotent_witness :
    postHandler randZero defaultState { action := "update-price", price := some 3 } =
      .ok { defaultState with pricePerSquare := 3 } ∧
    postHandler randZero { defaultState with pricePerSquare := 3 }
        { action := "update-price", price := some 3 } =
      .ok { defaultState with pricePerSquare := 3 } :=
  update_price_idempotent randZero randZero defaultState 3 (by decide)

/-- C10: with `index` absent (`undefined`), both range comparisons
`index < 0` and `index > 99` used by `claim` and `erase` evaluate to `false`,
so the range validation passes; in particular `erase` with no index returns a
200 success, persists the document, and leaves every square unchanged. -/
theorem undefined_index_erase_spec (rand : RandSource) (gs : GameState) :
    jsLt none 0 = false ∧ jsGt none 99 = false ∧
    postHandler rand gs { action := "erase" } = .ok gs :=
  ⟨rfl, rfl, rfl⟩

/-- On an in-bounds index, `jsArrayGet` reads the slot. -/
theorem jsArrayGet_eq (l : List α) (n : Int) (h0 : 0 ≤ n) (hl : n.toNat < l.length) :
    jsArrayGet l (some n) = some (l.get ⟨n.toNat, hl⟩) := by
  show (if h : 0 ≤ n ∧ n.toNat < l.length then some (l.get ⟨n.toNat, h.2⟩) else none) =
    some (l.get ⟨n.toNat, hl⟩)
  rw [dif_pos ⟨h0, hl⟩]

/-- C1: for every state with 100 squares and every index `i ∈ [0,99]`, claiming
with initials of length 2–4 sets `squares[i]` to the uppercased initials,
persists the document (the `.ok` path), and leaves every other square
unchanged; if `squares[i]` is already non-empty the claim fails with the
"Square already claimed" validation error and nothing is persisted. -/
theorem claim_spec (rand : RandSource) (gs : GameState) (i : Int) (s : String)
    (hlen : gs.squares.length = 100) (hi0 : 0 ≤ i) (hi99 : i ≤ 99)
    (hs2 : 2 ≤ s.length) (hs4 : s.length ≤ 4) :
    (gs.squares.getD i.toNat none = none →
      (postHandler rand gs { action := "claim", index := some i, initials := some s } =
        .ok { gs with squares := gs.squares.set i.toNat (some (jsToUpper s)) } ∧
       ∀ j : Nat, j ≠ i.toNat →
         (gs.squares.set i.toNat (some (jsToUpper s))).getD j none =
           gs.squares.getD j none)) ∧
    (∀ t : String, gs.squares.getD i.toNat none = some t → t ≠ "" →
      postHandler rand gs { action := "claim", index := some i, initials := some s } =
        .validationError "Square already claimed") := by
  have hb : i.toNat < gs.squares.length := by rw [hlen]; omega
  have hres : postHandler rand gs { action := "claim", index := some i, initials := some s } =
      if jsLt (some i) 0 || jsGt (some i) 99 then .validationError "Invalid square index"
      else if initialsInvalid (some s) then .validationError "Initials must be 2-4 characters"
      else if squareTruthy gs.squares (some i) then .validationError "Square already claimed"
      else .ok { gs with
                 squares := jsArraySet gs.squares (some i) (some (jsToUpper s)) } := rfl
  have hg1 : (jsLt (some i) 0 || jsGt (some i) 99) = false := by
    simp only [jsLt, jsGt, Bool.or_eq_false_iff, decide_eq_false_iff_not]
    omega
  have hg2 : initialsInvalid (some s) = false := by
    have hne : s ≠ "" := ne_empty_of_two_le_length s hs2
    simp only [initialsInvalid, Bool.or_eq_false_iff, decide_eq_false_iff_not]
    refine ⟨⟨?_, by omega⟩, by omega⟩
    rw [Bool.eq_false_iff]
    intro hie
    exact hne ((String.isEmpty_iff s).mp hie)
  constructor
  · intro hempty
    have hget : gs.squares.get ⟨i.toNat, hb⟩ = none := by
      have h := hempty
      rw [List.getD_eq_getElem?_getD, List.getElem?_eq_getElem hb] at h
      simpa using h
    have hg3 : squareTruthy gs.squares (some i) = false := by
      unfold squareTruthy
      rw [jsArrayGet_eq gs.squares i hi0 hb, hget]
    constructor
    · rw [hres, hg1, hg2, hg3]
      simp only [Bool.false_eq_true, if_false]
      rw [jsArraySet_eq_set gs.squares i (some (jsToUpper s)) hi0 hb]
    · intro j hj
      exact getD_set_ne gs.squares i.toNat j (some (jsToUpper s)) none hj
  · intro t hsome ht
    have hget : gs.squares.get ⟨i.toNat, hb⟩ = some t := by
      have h := hsome
      rw [List.getD_eq_getElem?_getD, List.getElem?_eq_getElem hb] at h
      simpa using h
    have hg3 : squareTruthy gs.squares (some i) = true := by
      unfold squareTruthy
      rw [jsArrayGet_eq gs.squares i hi0 hb, hget]
      have hie : t.isEmpty = false := by
        rw [Bool.eq_false_iff]
        intro hie
        exact ht ((String.isEmpty_iff t).mp hie)
      simp [hie]
    rw [hres, hg1, hg2, hg3]
    simp

/-- C1 (witness): claiming empty square 5 of the fresh board with "ab" writes
"AB" there, and square 0 is unchanged. -/
theorem claim_spec_witness :
    (postHandler randZero defaultState
        { action := "claim", index := some 5, initials := some "ab" } =
      .ok { defaultState with
            squares := (List.replicate 100 none).set 5 (some "AB") }) ∧
    ((List.replicate 100 none).set 5 (some "AB")).getD 0 none =
      (List.replicate 100 none).getD 0 none :=
  ⟨((claim_spec randZero defaultState 5 "ab" (by decide) (by decide) (by decide)
      (by decide) (by decide)).1 (by decide)).1,
   ((claim_spec randZero defaultState 5 "ab" (by decide) (by decide) (by decide)
      (by decide) (by decide)).1 (by decide)).2 0 (by decide)⟩

/-- C5: for a state with 4 quarter entries, `set-score` with quarter `q ∈ [0,3]`
replaces exactly `quarterScores[q]` by the pair `{team1Score, team2Score}`,
leaving the other entries and all other fields unchanged; with `q` outside
`[0,3]` it returns the "Invalid quarter" validation error and mutates nothing. -/
theorem set_score_spec (rand : RandSource) (gs : GameState) (q : Int) (t1 t2 : String)
    (hlen : gs.quarterScores.length = 4) :
    ((0 ≤ q ∧ q ≤ 3) →
      (postHandler rand gs
          { action := "set-score", quarter := some q, team1Score := t1, team2Score := t2 } =
        .ok { gs with quarterScores := gs.quarterScores.set q.toNat ⟨t1, t2⟩ } ∧
       ∀ j : Nat, j ≠ q.toNat →
         (gs.quarterScores.set q.toNat ⟨t1, t2⟩).getD j ⟨"", ""⟩ =
           gs.quarterScores.getD j ⟨"", ""⟩)) ∧
    ((q < 0 ∨ 3 < q) →
      postHandler rand gs
          { action := "set-score", quarter := some q, team1Score := t1, team2Score := t2 } =
        .validationError "Invalid quarter") := by
  have hres : postHandler rand gs
      { action := "set-score", quarter := some q, team1Score := t1, team2Score := t2 } =
      if jsLt (some q) 0 || jsGt (some q) 3 then .validationError "Invalid quarter"
      else .ok { gs with quarterScores := jsArraySet gs.quarterScores (some q) ⟨t1, t2⟩ } := rfl
  constructor
  · rintro ⟨hq0, hq3⟩
    have hb : q.toNat < gs.quarterScores.length := by rw [hlen]; omega
    have hg : (jsLt (some q) 0 || jsGt (some q) 3) = false := by
      simp only [jsLt, jsGt, Bool.or_eq_false_iff, decide_eq_false_iff_not]
      omega
    constructor
    · rw [hres, hg]
      simp only [Bool.false_eq_true, if_false]
      rw [jsArraySet_eq_set gs.quarterScores q ⟨t1, t2⟩ hq0 hb]
    · intro j hj
      exact getD_set_ne gs.quarterScores q.toNat j ⟨t1, t2⟩ ⟨"", ""⟩ hj
  · intro hq
    have hg : (jsLt (some q) 0 || jsGt (some q) 3) = true := by
      simp only [jsLt, jsGt, Bool.or_eq_true_iff, decide_eq_true_iff]
      omega
    rw [hres, hg]
    simp

/-- C5 (witness): setting quarter 2 to 14–7 on the default board writes entry 2
and leaves entry 0 unchanged. -/
theorem set_score_spec_witness :
    (postHandler randZero defaultState
        { action := "set-score", quarter := some 2, team1Score := "14", team2Score := "7" } =
      .ok { defaultState with
            quarterScores := (List.replicate 4 (⟨"", ""⟩ : QuarterScore)).set 2 ⟨"14", "7"⟩ }) ∧
    ((List.replicate 4 (⟨"", ""⟩ : QuarterScore)).set 2 ⟨"14", "7"⟩).getD 0 ⟨"", ""⟩ =
      (List.replicate 4 (⟨"", ""⟩ : QuarterScore)).getD 0 ⟨"", ""⟩ :=
  ⟨((set_score_spec randZero defaultState 2 "14" "7" (by decide)).1 (by decide)).1,
   ((set_score_spec randZero defaultState 2 "14" "7" (by decide)).1 (by decide)).2 0 (by decide)⟩

/-- C2: for a state with 100 squares (and random draws in the range
`Math.floor(Math.random()*(i+1)) ∈ [0,i]` actually produced by the source),
`assign-numbers` succeeds iff all squares are non-empty; on success,
`rowNumbers` and `colNumbers` are permutations of the digits 0–9 (same
multiset, length 10, no repeats) and `numbersAssigned` becomes true; on
failure (some square empty) it returns the validation error and mutates
nothing. -/
theorem assign_numbers_spec (rand : RandSource) (gs : GameState)
    (hlen : gs.squares.length = 100)
    (hrow : ∀ n, rand.rowC n ≤ n) (hcol : ∀ n, rand.colC n ≤ n) :
    ((∀ s ∈ gs.squares, s.isSome) →
      (postHandler rand gs { action := "assign-numbers" } =
        .ok { gs with
              rowNumbers := shuffle digits rand.rowC
              colNumbers := shuffle digits rand.colC
              numbersAssigned := true
              team1Name := if rand.swapTeams then gs.team2Name else gs.team1Name
              team2Name := if rand.swapTeams then gs.team1Name else gs.team2Name } ∧
       List.Perm (shuffle digits rand.rowC) digits ∧
       List.Perm (shuffle digits rand.colC) digits ∧
       (shuffle digits rand.rowC).length = 10 ∧
       (shuffle digits rand.colC).length = 10 ∧
       (shuffle digits rand.rowC).Nodup ∧
       (shuffle digits rand.colC).Nodup)) ∧
    ((∃ s ∈ gs.squares, s = none) →
      postHandler rand gs { action := "assign-numbers" } =
        .validationError "All squares must be claimed first") := by
  have hres : postHandler rand gs { action := "assign-numbers" } =
      if (gs.squares.filter (fun s => s.isSome)).length < 100 then
        .validationError "All squares must be claimed first"
      else
        .ok { gs with
              rowNumbers := shuffle digits rand.rowC
              colNumbers := shuffle digits rand.colC
              numbersAssigned := true
              team1Name := if rand.swapTeams then gs.team2Name else gs.team1Name
              team2Name := if rand.swapTeams then gs.team1Name else gs.team2Name } := rfl
  constructor
  · intro hall
    have hfull : (gs.squares.filter (fun s => s.isSome)).length = 100 := by
      rw [List.filter_length_eq_length.mpr hall]
      exact hlen
    refine ⟨by rw [hres, if_neg (by omega)],
      shuffle_perm digits rand.rowC, shuffle_perm digits rand.colC, ?_, ?_, ?_, ?_⟩
    · rw [(shuffle_perm digits rand.rowC).length_eq]
      rfl
    · rw [(shuffle_perm digits rand.colC).length_eq]
      rfl
    · exact ((shuffle_perm digits rand.rowC).nodup_iff).mpr (by decide)
    · exact ((shuffle_perm digits rand.colC).nodup_iff).mpr (by decide)
  · rintro ⟨x, hx, hnone⟩
    have hle : (gs.squares.filter (fun s => s.isSome)).length ≤ 100 := by
      rw [← hlen]
      exact List.length_filter_le _ _
    have hlt : (gs.squares.filter (fun s => s.isSome)).length < 100 := by
      refine Nat.lt_of_le_of_ne hle ?_
      intro heq
      have hmem := List.filter_length_eq_length.mp (by rw [heq, hlen]) x hx
      rw [hnone] at hmem
      simp at hmem
    rw [hres, if_pos hlt]

/-- C2 (witness): on a fully-claimed board with the always-0 random source,
`assign-numbers` succeeds and both digit rows are permutations of 0–9. -/
theorem assign_numbers_spec_witness :
    (postHandler randZero gsFull { action := "assign-numbers" } =
      .ok { gsFull with
            rowNumbers := shuffle digits randZero.rowC
            colNumbers := shuffle digits randZero.colC
            numbersAssigned := true }) ∧
    List.Perm (shuffle digits randZero.rowC) digits ∧
    List.Perm (shuffle digits randZero.colC) digits ∧
    (shuffle digits randZero.rowC).length = 10 ∧
    (shuffle digits randZero.colC).length = 10 ∧
    (shuffle digits randZero.rowC).Nodup ∧
    (shuffle digits randZero.colC).Nodup :=
  (assign_numbers_spec randZero gsFull (by decide)
    (fun n => Nat.zero_le n) (fun n => Nat.zero_le n)).1 (by decide)

/-- C7: the default document has exactly 100 squares, and every action that
returns (and persists) a document preserves having exactly 100 squares. -/
theorem squares_length_invariant :
    defaultState.squares.length = 100 ∧
    ∀ (rand : RandSource) (gs : GameState) (req : Request) (gs' : GameState),
      gs.squares.length = 100 → postHandler rand gs req = .ok gs' →
      gs'.squares.length = 100 := by
  refine ⟨by decide, ?_⟩
  intro rand gs req gs' hlen hok
  unfold postHandler at hok
  split at hok
  · -- claim
    split at hok
    · cases hok
    · split at hok
      · cases hok
      · split at hok
        · cases hok
        · cases hok
          simp [jsArraySet_length, hlen]
  · -- assign-numbers
    split at hok
    · cases hok
    · cases hok
      simpa using hlen
  · -- update-teams
    cases hok
    simpa using hlen
  · -- update-price
    split at hok
    · split at hok
      · cases hok
        simpa using hlen
      · cases hok
        simpa using hlen
    · cases hok
      simpa using hlen
  · -- set-score
    split at hok
    · cases hok
    · cases hok
      simpa using hlen
  · -- erase
    split at hok
    · cases hok
    · cases hok
      simp [jsArraySet_length, hlen]
  · -- clear-board
    cases hok
    simp
  · -- reset
    cases hok
    simp
  · -- unrecognized action
    cases hok

/-- C7 (witness): after `clear-board` on the default document the persisted
document still has 100 squares. -/
theorem squares_length_invariant_witness :
    ({ defaultState with squares := List.replicate 100 none } : GameState).squares.length = 100 :=
  squares_length_invariant.2 randZero defaultState { action := "clear-board" }
    { defaultState with squares := List.replicate 100 none } (by decide) rfl

/-- Any persisted result of an action other than `assign-numbers` and `reset`
carries `numbersAssigned` over unchanged. -/
theorem postHandler_numbersAssigned (rand : RandSource) (gs : GameState) (req : Request)
    (gs' : GameState) (h1 : req.action ≠ "assign-numbers") (h2 : req.action ≠ "reset")
    (hok : postHandler rand gs req = .ok gs') :
    gs'.numbersAssigned = gs.numbersAssigned := by
  unfold postHandler at hok
  split at hok
  · -- claim
    split at hok
    · cases hok
    · split at hok
      · cases hok
      · split at hok
        · cases hok
        · cases hok
          simp
  · -- assign-numbers
    rename_i heq
    exact absurd heq h1
  · -- update-teams
    cases hok
    simp
  · -- update-price
    split at hok
    · split at hok
      · cases hok
        simp
      · cases hok
        simp
    · cases hok
      simp
  · -- set-score
    split at hok
    · cases hok
    · cases hok
      simp
  · -- erase
    split at hok
    · cases hok
    · cases hok
      simp
  · -- clear-board
    cases hok
    simp
  · -- reset
    rename_i heq
    exact absurd heq h2
  · -- unrecognized action
    cases hok

/-- One round trip (a 400 leaves the stored document untouched) preserves
`numbersAssigned` for actions other than `assign-numbers` and `reset`. -/
theorem step_numbersAssigned (rand : RandSource) (gs : GameState) (req : Request)
    (h1 : req.action ≠ "assign-numbers") (h2 : req.action ≠ "reset") :
    (step rand gs req).numbersAssigned = gs.numbersAssigned := by
  unfold step
  split
  · rename_i gs' heq
    exact postHandler_numbersAssigned rand gs req gs' h1 h2 heq
  · rfl

/-- C8: the flag `numbersAssigned` is false in the default document; every action other
than `assign-numbers` and `reset` that persists a document leaves it exactly
unchanged (so it becomes true only via `assign-numbers`); and no sequence of
claim / update-teams / update-price / set-score / erase / clear-board requests
ever takes it from true back to false. -/
theorem numbers_assigned_temporal :
    defaultState.numbersAssigned = false ∧
    (∀ (rand : RandSource) (gs : GameState) (req : Request) (gs' : GameState),
      req.action ≠ "assign-numbers" → req.action ≠ "reset" →
      postHandler rand gs req = .ok gs' →
      gs'.numbersAssigned = gs.numbersAssigned) ∧
    (∀ (seq : List (RandSource × Request)) (gs : GameState),
      (∀ rq ∈ seq, rq.2.action ∈
        (["claim", "update-teams", "update-price", "set-score", "erase",
          "clear-board"] : List String)) →
      gs.numbersAssigned = true → (runSeq seq gs).numbersAssigned = true) := by
  refine ⟨rfl, postHandler_numbersAssigned, ?_⟩
  intro seq
  induction seq with
  | nil =>
    intro gs _ h
    exact h
  | cons rq rest ih =>
    intro gs hmem htrue
    have hact := hmem rq (List.mem_cons_self rq rest)
    have h1 : rq.2.action ≠ "assign-numbers" := by
      intro hc
      rw [hc] at hact
      exact absurd hact (by decide)
    have h2 : rq.2.action ≠ "reset" := by
      intro hc
      rw [hc] at hact
      exact absurd hact (by decide)
    show (runSeq rest (step rq.1 gs rq.2)).numbersAssigned = true
    refine ih _ (fun x hx => hmem x (List.mem_cons_of_mem rq hx)) ?_
    rw [step_numbersAssigned rq.1 gs rq.2 h1 h2]
    exact htrue

/-- C8 (witness): a clear-board round trip on a state with assigned numbers
keeps `numbersAssigned` true. -/
theorem numbers_assigned_temporal_witness :
    (runSeq [(randZero, { action := "clear-board" })]
      { defaultState with numbersAssigned := true }).numbersAssigned = true :=
  numbers_assigned_temporal.2.2 [(randZero, { action := "clear-board" })]
    { defaultState with numbersAssigned := true } (by decide) rfl
